import Mathlib

/-!
Verification of `ghostwriter/modules/reportwriter/base/pptx.py`, the
PowerPoint export subsystem of the Ghostwriter reporting application.

The Python source is shallowly embedded: the mutable presentation object
graph (slides, shapes, text frames, paragraphs) becomes explicit state
passing over Lean structures, logging becomes an explicit list of log
entries, and Python exceptions become `Except` results.  Behavior of the
external presentation / HTML libraries (python-pptx, BeautifulSoup) and of
repository modules outside this file is modelled from the specification
and marked as such in the doc comments.
-/

namespace Ghostwriter.Pptx

/-- Severity of a log record emitted through the module logger. -/
inductive LogLevel
  | warning
  | exception
deriving DecidableEq, Repr

/-- One record emitted through the module logger. -/
structure LogEntry where
  level : LogLevel
  message : String
deriving DecidableEq, Repr

/-! ## Template loading (`ExportBasePptx.__init__`) -/

/-- Exceptions that the external `Presentation` constructor can raise:
`ValueError` when the file is not a valid presentation package,
`PackageNotFoundError` when the path does not exist, and any other
exception for unexpected failures. -/
inductive PresExc
  | valueError
  | packageNotFound
  | otherExc
deriving DecidableEq, Repr

/-- Condition of the template file handed to the orchestrator. -/
inductive TemplateFile
  | missing
  | corrupt
  | otherBad
  | valid (content : Nat)
deriving DecidableEq, Repr

/-- Modelled from the spec: the external python-pptx `Presentation`
constructor (not part of this repository).  A missing path raises
`PackageNotFoundError`, a file that exists but is not a valid presentation
package raises `ValueError`, any other failure raises some other
exception, and a valid file yields the opened presentation. -/
def presentationOpen : TemplateFile → Except PresExc Nat
  | .missing => .error .packageNotFound
  | .corrupt => .error .valueError
  | .otherBad => .error .otherExc
  | .valid c => .ok c

/-- The error-kind taxonomy the spec assigns to template-load failures. -/
inductive LoadErrorKind
  | TemplateLoadError
  | TemplateNotFoundError
  | UnknownLoadError
deriving DecidableEq, Repr

/-- Modelled from the spec: which spec error kind each propagated
exception corresponds to (the distinction drives operator-facing
messages). -/
def loadErrorKind : PresExc → LoadErrorKind
  | .valueError => .TemplateLoadError
  | .packageNotFound => .TemplateNotFoundError
  | .otherExc => .UnknownLoadError

/-- `ExportBasePptx.__init__` (pptx.py lines 30-52): tries to open the
template; each exception class gets its own `except` arm that logs a
cause-specific message with `logger.exception` and re-raises the same
exception. -/
def exportBasePptxInit (template : TemplateFile) :
    List LogEntry × Except PresExc Nat :=
  match presentationOpen template with
  | .ok p => ([], .ok p)
  | .error .valueError =>
      ([⟨.exception,
        "Failed to load the provided template document because it is not a PowerPoint file"⟩],
       .error .valueError)
  | .error .packageNotFound =>
      ([⟨.exception,
        "Failed to load the provided template document because file could not be found"⟩],
       .error .packageNotFound)
  | .error .otherExc =>
      ([⟨.exception,
        "Failed to load the provided template document for unknown reason"⟩],
       .error .otherExc)

/-! ## Text frames and bullets (`write_bullet`, `write_objective_list`) -/

/-- A paragraph of a text frame: its literal text and indentation level. -/
structure Paragraph where
  text : String
  level : Nat
deriving DecidableEq, Repr

/-- A text frame is an ordered sequence of paragraphs; `add_paragraph`
appends a fresh paragraph at the end. -/
abbrev TextFrame := List Paragraph

/-- `write_bullet` (pptx.py lines 122-126): adds a paragraph to the text
frame, sets its text, and sets its indentation level. -/
def write_bullet (tf : TextFrame) (text : String) (level : Nat) : TextFrame :=
  tf ++ [⟨text, level⟩]

/-- One objective record as consumed by `write_objective_list`. -/
structure Objective where
  objective : String
  status : String
  complete : Bool
deriving DecidableEq, Repr

/-- `write_objective_list` (pptx.py lines 129-135): for each objective,
replaces the status with the string Achieved when the objective is
complete, then writes one bullet at level 1. -/
def write_objective_list (tf : TextFrame) (objectives : List Objective) :
    TextFrame :=
  objectives.foldl
    (fun acc obj =>
      write_bullet acc
        (obj.objective ++ " – " ++
          (if obj.complete then "Achieved" else obj.status)) 1)
    tf

/-- The bullet paragraph that one objective record gives rise to. -/
def objectiveBullet (obj : Objective) : Paragraph :=
  ⟨obj.objective ++ " – " ++ (if obj.complete then "Achieved" else obj.status), 1⟩

/-! ## Plain-text sanitizer (`prepare_for_pptx`) -/

/-- Modelled from the spec: the markup-stripping step performed by the
external BeautifulSoup `.text` extraction (not part of this repository).
Characters between an opening angle bracket and the matching closing one
belong to markup and are dropped; every other character is kept. -/
def stripTags : List Char → Bool → List Char
  | [], _ => []
  | c :: rest, true =>
      if c = '>' then stripTags rest false else stripTags rest true
  | c :: rest, false =>
      if c = '<' then stripTags rest true else c :: stripTags rest false

/-- Modelled from the spec: the text of `BeautifulSoup(value, lxml)`, i.e.
the input with markup stripped. -/
def soupText (value : String) : String :=
  ⟨stripTags value.data false⟩

/-- Outcome of the guarded parsing step inside `prepare_for_pptx`: either
the external parse succeeds, or it raises some exception (carried as a
message). -/
inductive ParseOutcome
  | ok
  | raised (e : String)
deriving DecidableEq, Repr

/-- Python `replace` of the carriage-return character with the empty
string: every 0x0D character is removed. -/
def removeCR (s : String) : String :=
  ⟨s.data.filter (fun c => c ≠ '\x0D')⟩

/-- `prepare_for_pptx` (pptx.py lines 138-146): inside a try block, a
truthy value is parsed and has its markup and 0x0D characters stripped; a
falsy value (None or the empty string) yields the literal N/A; any
exception from the parse is logged with `logger.exception` and turned
into the empty string.  The input is `Option String` (None or a string)
together with the outcome of the external parse. -/
def prepare_for_pptx (value : Option String) (parse : ParseOutcome) :
    List LogEntry × String :=
  match value with
  | none => ([], "N/A")
  | some s =>
      if s = "" then ([], "N/A")
      else
        match parse with
        | .ok => ([], removeCR (soupText s))
        | .raised _ =>
            ([⟨.exception, "Failed parsing this value for PPTX"⟩], "")

/-! ## Paragraph deletion (`delete_paragraph`) -/

/-- The XML-level state of one paragraph element: its element identity and,
when attached, the ordered child list of its parent element. -/
structure ParaState where
  pid : Nat
  parent : Option (List Nat)
deriving DecidableEq, Repr

/-- Modelled from the spec: the external lxml `remove` call on a parent
element, which detaches the given child and raises `ValueError` when the
element is not among the children. -/
def elementRemove (children : List Nat) (pid : Nat) :
    Except String (List Nat) :=
  if pid ∈ children then .ok (children.erase pid) else .error "ValueError"

/-- `delete_paragraph` (pptx.py lines 149-163): fetches the paragraph
element and its parent; when a parent exists the element is removed from
it, otherwise a warning is logged and nothing changes. -/
def delete_paragraph (st : ParaState) :
    Except String (ParaState × List LogEntry) :=
  match st.parent with
  | some children =>
      (elementRemove children st.pid).map (fun _ => (⟨st.pid, none⟩, []))
  | none =>
      .ok (st,
        [⟨.warning,
          "Could not delete paragraph in because it had no parent element"⟩])

/-! ## Rich-text processing (`process_rich_text_pptx`) -/

/-- `ExportBasePptx.process_rich_text_pptx` (pptx.py lines 56-71): first
substitutes template variables into the text via `preprocess_rich_text`
(defined in the base export class outside this file and abstracted here as
the function `subst`), then hands the substituted text to the converter
(abstracted as `convert`, returning `Except`); on any conversion
exception the substituted input text is logged with `logger.warning` and
the exception is re-raised unchanged. -/
def process_rich_text_pptx (subst : String → String)
    (convert : String → Except String Unit) (text : String) :
    List LogEntry × Except String Unit :=
  let t := subst text
  match convert t with
  | .ok _ => ([], .ok ())
  | .error e => ([⟨.warning, "Input text: " ++ t⟩], .error e)

/-! ## Slide shapes and placeholder cloning (`clone_placeholder`) -/

/-- A shape on a slide: either an original shape of the deck or the clone
of a placeholder shape. -/
inductive Shape
  | orig (id : Nat)
  | cloneOf (source : Nat)
deriving DecidableEq, Repr

/-- A slide: an ordered sequence of shapes. -/
structure Slide where
  shapes : List Shape
deriving DecidableEq, Repr

/-- A slide layout: its placeholder shapes, addressed by placeholder
index. -/
structure SlideLayout where
  placeholders : Nat → Nat

/-- Modelled from the spec: the external shape-collection
`clone_placeholder` operation of the presentation library, which copies
the given layout placeholder onto the slide; the cloned shape is appended
at the end of the shape sequence. -/
def shapesClonePlaceholder (slide : Slide) (ph : Nat) : Slide :=
  ⟨slide.shapes ++ [.cloneOf ph]⟩

/-- `clone_placeholder` (pptx.py lines 101-109): looks up the layout
placeholder at the given index, clones it onto the slide, and returns the
layout placeholder together with the last shape of the slide (Python
index -1, hence `getLast?`). -/
def clone_placeholder (slide : Slide) (slide_layout : SlideLayout)
    (placeholder_idx : Nat) : Slide × (Nat × Option Shape) :=
  let layout_placeholder := slide_layout.placeholders placeholder_idx
  let slide2 := shapesClonePlaceholder slide layout_placeholder
  (slide2, (layout_placeholder, slide2.shapes.getLast?))

/-! ## Export serialization (`ExportBasePptx.run`) -/

/-- The export-orchestrator state: the opened presentation document,
abstracted as its slide sequence. -/
structure ExportState where
  ppt_presentation : List Slide
deriving DecidableEq, Repr

/-- `ExportBasePptx.run` (pptx.py lines 73-76): creates a fresh in-memory
byte buffer, saves the presentation into it (the serialization performed
by the external library is abstracted as `save`), and returns the buffer;
the state is threaded through to show it is not otherwise mutated. -/
def exportRun (save : List Slide → List Nat) (st : ExportState) :
    List Nat × ExportState :=
  let out : List Nat := []
  let out := out ++ save st.ppt_presentation
  (out, st)

/-! ## Evidence handling in the rich-text converter -/

/-- A content node of the parsed rich text: a block of text or an inline
evidence marker referencing a named evidence artifact. -/
inductive RichNode
  | textBlock (s : String)
  | evidenceMark (ref : String)
deriving DecidableEq, Repr

/-- An item emitted into the slide by the converter: a paragraph of text
or a picture shape holding image bytes. -/
inductive SlideItem
  | para (s : String)
  | picture (imageBytes : List Nat)
deriving DecidableEq, Repr

/-- Resolution of an evidence reference against the evidences mapping. -/
def resolveEvidence (evidences : List (String × List Nat)) (ref : String) :
    Option (List Nat) :=
  (evidences.find? (fun p => p.1 = ref)).map (fun p => p.2)

/-- Modelled from the spec: the evidence handling of the rich-text
converter `HtmlToPptxWithEvidence` (implemented in the richtext converter
module, outside this file).  Text blocks become paragraphs; an evidence
marker whose reference resolves is inserted as a picture shape at the
current position; an unresolved reference is a `MissingEvidenceError`
that is logged and skipped, and conversion continues with the remaining
nodes. -/
def convertNodes (evidences : List (String × List Nat)) :
    List RichNode → List SlideItem × List LogEntry
  | [] => ([], [])
  | .textBlock s :: rest =>
      let (items, logs) := convertNodes evidences rest
      (.para s :: items, logs)
  | .evidenceMark ref :: rest =>
      let (items, logs) := convertNodes evidences rest
      match resolveEvidence evidences ref with
      | some bytes => (.picture bytes :: items, logs)
      | none =>
          (items, ⟨.warning, "MissingEvidenceError: " ++ ref⟩ :: logs)

/-- The slide item one node contributes, if any: unresolved evidence
markers contribute nothing. -/
def nodeItem (evidences : List (String × List Nat)) :
    RichNode → Option SlideItem
  | .textBlock s => some (.para s)
  | .evidenceMark ref => (resolveEvidence evidences ref).map .picture

/-- The log entry one node contributes, if any: only unresolved evidence
markers log. -/
def nodeLog (evidences : List (String × List Nat)) :
    RichNode → Option LogEntry
  | .textBlock _ => none
  | .evidenceMark ref =>
      match resolveEvidence evidences ref with
      | some _ => none
      | none => some ⟨.warning, "MissingEvidenceError: " ++ ref⟩

/-! ## Theorems -/

/-- Helper: `write_objective_list` appends exactly one bullet per
objective, in input order. -/
theorem write_objective_list_append (tf : TextFrame) (objs : List Objective) :
    write_objective_list tf objs = tf ++ objs.map objectiveBullet := by
  induction objs generalizing tf with
  | nil => simp [write_objective_list]
  | cons o rest ih =>
      have h : write_objective_list tf (o :: rest)
          = write_objective_list (tf ++ [objectiveBullet o]) rest := rfl
      rw [h, ih]
      simp

/-- C1: when the template fails to load, `__init__` logs the failure with
`logger.exception` and re-raises the same exception, and the exception
class distinguishes the cause: a missing path gives the not-found kind
(`TemplateNotFoundError`), an existing but invalid presentation package
gives the load-error kind (`TemplateLoadError`), and any other failure
gives `UnknownLoadError`. -/
theorem init_load_error_kinds (t : TemplateFile) (e : PresExc)
    (h : presentationOpen t = .error e) :
    (exportBasePptxInit t).2 = .error e ∧
    (exportBasePptxInit t).1.length = 1 ∧
    (∀ l ∈ (exportBasePptxInit t).1, l.level = .exception) ∧
    (t = .missing → loadErrorKind e = .TemplateNotFoundError) ∧
    (t = .corrupt → loadErrorKind e = .TemplateLoadError) ∧
    (t = .otherBad → loadErrorKind e = .UnknownLoadError) := by
  cases t <;> simp [presentationOpen] at h <;> subst h <;>
    simp [exportBasePptxInit, presentationOpen, loadErrorKind]

/-- Witness for C1 at a missing template path. -/
theorem init_load_error_kinds_witness :
    (exportBasePptxInit .missing).2 = .error .packageNotFound ∧
    loadErrorKind .packageNotFound = .TemplateNotFoundError := by
  have h := init_load_error_kinds .missing .packageNotFound rfl
  exact ⟨h.1, h.2.2.2.1 rfl⟩

/-- C2: `write_objective_list` emits exactly one bullet line per
objective, in input order; a complete objective yields the line
objective – Achieved (replacing the stored status), an incomplete one
yields objective – status with its own status value. -/
theorem write_objective_list_lines (tf : TextFrame) (objs : List Objective) :
    write_objective_list tf objs =
      tf ++ objs.map (fun obj =>
        if obj.complete
        then Paragraph.mk (obj.objective ++ " – " ++ "Achieved") 1
        else Paragraph.mk (obj.objective ++ " – " ++ obj.status) 1) := by
  rw [write_objective_list_append]
  congr 1
  apply List.map_congr_left
  intro obj _
  cases h : obj.complete <;> simp [objectiveBullet, h]

/-- Helper: the modelled markup stripper never emits an opening angle
bracket, hence its output holds no tag. -/
theorem stripTags_no_lt (cs : List Char) : ∀ b, '<' ∉ stripTags cs b := by
  induction cs with
  | nil => intro b; simp [stripTags]
  | cons c rest ih =>
      intro b
      cases b with
      | false =>
          by_cases h : c = '<'
          · simpa [stripTags, h] using ih true
          · simp only [stripTags, if_neg h, List.mem_cons, not_or]
            exact ⟨fun h1 => h h1.symm, ih false⟩
      | true =>
          by_cases h : c = '>'
          · simpa [stripTags, h] using ih false
          · simpa [stripTags, h] using ih true

/-- C3: `prepare_for_pptx` maps None and the empty string to N/A, maps a
simple paragraph tag around Text to Text, and for every successfully
parsed input the result holds no carriage-return (0x0D) character and no
markup (no opening angle bracket). -/
theorem prepare_for_pptx_values :
    prepare_for_pptx none .ok = ([], "N/A") ∧
    prepare_for_pptx (some "") .ok = ([], "N/A") ∧
    prepare_for_pptx (some "<p>Text</p>") .ok = ([], "Text") ∧
    ∀ s : String,
      '\x0D' ∉ ((prepare_for_pptx (some s) .ok).2).data ∧
      '<' ∉ ((prepare_for_pptx (some s) .ok).2).data := by
  refine ⟨rfl, by simp [prepare_for_pptx], by decide, ?_⟩
  intro s
  by_cases h : s = ""
  · subst h
    constructor <;> simp [prepare_for_pptx]
  · simp only [prepare_for_pptx, if_neg h, removeCR, soupText]
    constructor
    · intro hmem
      have h2 := (List.mem_filter.mp hmem).2
      simp at h2
    · intro hmem
      exact stripTags_no_lt _ _ (List.mem_filter.mp hmem).1

/-- Witness for C3: a concrete parsed input whose output holds no
carriage return. -/
theorem prepare_for_pptx_values_witness :
    '\x0D' ∉ ((prepare_for_pptx (some "<p>a</p>") .ok).2).data :=
  (prepare_for_pptx_values.2.2.2 "<p>a</p>").1

/-- C4: `clone_placeholder` copies the layout placeholder at the given
index onto the slide and returns the layout placeholder paired with the
newly created shape, which is the last element of the slide shape
sequence after cloning. -/
theorem clone_placeholder_last (slide : Slide) (layout : SlideLayout)
    (idx : Nat) :
    clone_placeholder slide layout idx =
      (⟨slide.shapes ++ [.cloneOf (layout.placeholders idx)]⟩,
       (layout.placeholders idx,
        some (.cloneOf (layout.placeholders idx)))) ∧
    (clone_placeholder slide layout idx).2.2 =
      (clone_placeholder slide layout idx).1.shapes.getLast? := by
  refine ⟨?_, rfl⟩
  simp [clone_placeholder, shapesClonePlaceholder]

/-- C5: `delete_paragraph` detaches an attached paragraph from its parent
without raising, is a warning-logging no-op on an already detached
paragraph, and hence a second call on the same paragraph never raises and
changes nothing. -/
theorem delete_paragraph_no_raise_twice (st : ParaState) :
    (∀ children, st.parent = some children → st.pid ∈ children →
       delete_paragraph st = .ok (⟨st.pid, none⟩, [])) ∧
    (st.parent = none →
       delete_paragraph st =
         .ok (st, [⟨.warning,
           "Could not delete paragraph in because it had no parent element"⟩])) ∧
    delete_paragraph ⟨st.pid, none⟩ =
      .ok (⟨st.pid, none⟩, [⟨.warning,
        "Could not delete paragraph in because it had no parent element"⟩]) := by
  refine ⟨?_, ?_, rfl⟩
  · intro children hp hin
    simp [delete_paragraph, hp, elementRemove, hin, Except.map]
  · intro hp
    simp [delete_paragraph, hp]

/-- Witness for C5: deleting a concrete attached paragraph succeeds, and
the second delete on the detached paragraph is a logged no-op. -/
theorem delete_paragraph_no_raise_twice_witness :
    delete_paragraph ⟨0, some [0]⟩ = .ok (⟨0, none⟩, []) ∧
    delete_paragraph ⟨0, none⟩ =
      .ok (⟨0, none⟩, [⟨.warning,
        "Could not delete paragraph in because it had no parent element"⟩]) := by
  have h := delete_paragraph_no_raise_twice ⟨0, some [0]⟩
  exact ⟨h.1 [0] rfl (by simp), h.2.2⟩

/-- C6: when the conversion step fails, `process_rich_text_pptx` logs the
already substituted text and re-raises the same exception, returning no
converted output. -/
theorem process_rich_text_pptx_reraise (subst : String → String)
    (convert : String → Except String Unit) (text : String) (e : String)
    (h : convert (subst text) = .error e) :
    process_rich_text_pptx subst convert text =
      ([⟨.warning, "Input text: " ++ subst text⟩], .error e) := by
  simp [process_rich_text_pptx, h]

/-- Witness for C6 with an identity substitution and a failing
converter. -/
theorem process_rich_text_pptx_reraise_witness :
    process_rich_text_pptx (fun s => s) (fun _ => .error "bad") "x" =
      ([⟨.warning, "Input text: " ++ "x"⟩], .error "bad") :=
  process_rich_text_pptx_reraise (fun s => s) (fun _ => .error "bad") "x"
    "bad" rfl

/-- C7: when the parse inside `prepare_for_pptx` raises, the exception is
not propagated: the failure is logged and the empty string is
returned. -/
theorem prepare_for_pptx_no_raise (s : String) (h : s ≠ "") (e : String) :
    prepare_for_pptx (some s) (.raised e) =
      ([⟨.exception, "Failed parsing this value for PPTX"⟩], "") := by
  simp [prepare_for_pptx, h]

/-- Witness for C7 at a concrete value and exception. -/
theorem prepare_for_pptx_no_raise_witness :
    prepare_for_pptx (some "<p") (.raised "boom") =
      ([⟨.exception, "Failed parsing this value for PPTX"⟩], "") :=
  prepare_for_pptx_no_raise "<p" (by simp) "boom"

/-- C8: during rich-text conversion, every text block becomes a
paragraph, every resolvable evidence marker is inserted as a picture
shape holding the resolved image bytes at its position, and every
unresolved marker contributes a logged `MissingEvidenceError` and no
picture while conversion continues: the result is total, never
aborting. -/
theorem convertNodes_evidence (evidences : List (String × List Nat))
    (nodes : List RichNode) :
    convertNodes evidences nodes =
      (nodes.filterMap (nodeItem evidences),
       nodes.filterMap (nodeLog evidences)) := by
  induction nodes with
  | nil => rfl
  | cons n rest ih =>
      cases n with
      | textBlock s => simp [convertNodes, nodeItem, nodeLog, ih]
      | evidenceMark ref =>
          cases h : resolveEvidence evidences ref <;>
            simp [convertNodes, nodeItem, nodeLog, ih, h]

/-- C9: `run()` returns the byte buffer holding exactly the serialized
presentation and leaves the export state unchanged. -/
theorem exportRun_serializes (save : List Slide → List Nat)
    (st : ExportState) :
    exportRun save st = (save st.ppt_presentation, st) := by
  simp [exportRun]

/-- C10: every bullet emitted by `write_objective_list` is appended after
the preexisting paragraphs, the preexisting paragraphs are unchanged, the
frame grows by exactly one paragraph per objective, and every appended
paragraph has indentation level 1. -/
theorem write_objective_list_levels (tf : TextFrame) (objs : List Objective) :
    List.take tf.length (write_objective_list tf objs) = tf ∧
    (write_objective_list tf objs).length = tf.length + objs.length ∧
    ∀ p ∈ List.drop tf.length (write_objective_list tf objs), p.level = 1 := by
  rw [write_objective_list_append]
  refine ⟨by simp, by simp, ?_⟩
  intro p hp
  rw [List.drop_left] at hp
  simp only [List.mem_map] at hp
  obtain ⟨o, _, rfl⟩ := hp
  rfl

end Ghostwriter.Pptx
